import Mathlib

/-
Verification of the product-insight-pipeline core against its specification.

The pipeline's decision logic lives in three Python handlers:
  * src/functions/build_features/app.py      (fact extraction + KPI derivation)
  * src/functions/generate_roi_brief/app.py  (brief generation / response parsing)
  * src/functions/analyze_and_notify/app.py  (analysis + notification)

We shallowly embed the Python code: JSON values become an inductive `Json`
(numbers as exact rationals), Python exceptions become an explicit `PyErr`
error monad (`Except PyErr`), and external collaborators (the blob store,
the generative-model call, the email service, environment variables, the
current date) become explicit parameters.  Every definition mirrors the
corresponding Python lines; deviations forced by the abstraction (e.g. the
exact comparison schedule inside Python list sorting) are noted in comments.
-/

set_option autoImplicit false

namespace PIP

/-- A JSON value as manipulated by the Python handlers.  Numbers are modelled
as exact rationals (Python ints and floats; the float rounding idealised as
exact arithmetic).  Python `None` is `Json.null`.  Objects are association
lists; the Python dicts in play have distinct keys and lookups take the
first match. -/
inductive Json where
  | null : Json
  | bool (b : Bool) : Json
  | num (q : ℚ) : Json
  | str (s : String) : Json
  | arr (elems : List Json) : Json
  | obj (entries : List (String × Json)) : Json
deriving Repr

mutual

/-- Structural equality test on `Json`. -/
def jsonBeq : Json → Json → Bool
  | Json.null, Json.null => true
  | Json.bool a, Json.bool b => a == b
  | Json.num a, Json.num b => a == b
  | Json.str a, Json.str b => a == b
  | Json.arr a, Json.arr b => jsonBeqL a b
  | Json.obj a, Json.obj b => jsonBeqO a b
  | _, _ => false

/-- Structural equality test on JSON arrays. -/
def jsonBeqL : List Json → List Json → Bool
  | [], [] => true
  | a :: as, b :: bs => jsonBeq a b && jsonBeqL as bs
  | _, _ => false

/-- Structural equality test on JSON object entry lists. -/
def jsonBeqO : List (String × Json) → List (String × Json) → Bool
  | [], [] => true
  | (k, v) :: as, (l, w) :: bs => k == l && jsonBeq v w && jsonBeqO as bs
  | _, _ => false

end

/-- `jsonBeq` decides equality (auxiliary, by induction on size). -/
def jsonBeq_iff_aux :
    ∀ (n : Nat) (a b : Json), sizeOf a ≤ n → (jsonBeq a b = true ↔ a = b) := by
  intro n
  induction n with
  | zero =>
    intro a b h
    exact absurd h (by cases a <;> simp)
  | succ n ih =>
    intro a b hle
    cases a with
    | null => cases b <;> simp [jsonBeq]
    | bool x => cases b <;> simp [jsonBeq]
    | num q => cases b <;> simp [jsonBeq]
    | str s => cases b <;> simp [jsonBeq]
    | arr xs =>
      cases b with
      | arr ys =>
        simp only [jsonBeq, Json.arr.injEq]
        have hxs : sizeOf xs ≤ n := by simp at hle; omega
        clear hle
        induction xs generalizing ys with
        | nil => cases ys <;> simp [jsonBeqL]
        | cons x xs ihx =>
          cases ys with
          | nil => simp [jsonBeqL]
          | cons y ys =>
            have hx : sizeOf x ≤ n := by simp at hxs; omega
            have hrest : sizeOf xs ≤ n := by simp at hxs; omega
            simp [jsonBeqL, ih x y hx, ihx ys hrest]
      | null => simp [jsonBeq]
      | bool _ => simp [jsonBeq]
      | num _ => simp [jsonBeq]
      | str _ => simp [jsonBeq]
      | obj _ => simp [jsonBeq]
    | obj xs =>
      cases b with
      | obj ys =>
        simp only [jsonBeq, Json.obj.injEq]
        have hxs : sizeOf xs ≤ n := by simp at hle; omega
        clear hle
        induction xs generalizing ys with
        | nil => cases ys <;> simp [jsonBeqO]
        | cons x xs ihx =>
          cases ys with
          | nil => simp [jsonBeqO]
          | cons y ys =>
            obtain ⟨k, v⟩ := x
            obtain ⟨l, w⟩ := y
            have hv : sizeOf v ≤ n := by simp at hxs; omega
            have hrest : sizeOf xs ≤ n := by simp at hxs; omega
            simp [jsonBeqO, ih v w hv, ihx ys hrest]
      | null => simp [jsonBeq]
      | bool _ => simp [jsonBeq]
      | num _ => simp [jsonBeq]
      | str _ => simp [jsonBeq]
      | arr _ => simp [jsonBeq]

/-- `jsonBeq` decides equality. -/
def jsonBeq_iff (a b : Json) : jsonBeq a b = true ↔ a = b :=
  jsonBeq_iff_aux (sizeOf a) a b le_rfl

instance : DecidableEq Json :=
  fun a b => decidable_of_iff (jsonBeq a b = true) (jsonBeq_iff a b)

instance : BEq Json := ⟨fun a b => jsonBeq a b⟩

instance {ε α : Type} [DecidableEq ε] [DecidableEq α] : DecidableEq (Except ε α) :=
  fun a b =>
    match a, b with
    | Except.ok x, Except.ok y =>
      if h : x = y then isTrue (by rw [h]) else isFalse (by simp [h])
    | Except.error x, Except.error y =>
      if h : x = y then isTrue (by rw [h]) else isFalse (by simp [h])
    | Except.ok _, Except.error _ => isFalse (by simp)
    | Except.error _, Except.ok _ => isFalse (by simp)

/-- The Python exceptions the embedded code can raise. -/
inductive PyErr where
  | attributeError : PyErr
  | typeError : PyErr
  | keyError : PyErr
  | indexError : PyErr
  | zeroDivisionError : PyErr
  | valueError (msg : String) : PyErr
  | clientError (key : String) : PyErr
deriving DecidableEq, Repr

/-- First-match lookup in a JSON object's entry list (Python dict lookup;
the dicts arising in the pipeline have distinct keys). -/
def jsonLookup : List (String × Json) → String → Option Json
  | [], _ => none
  | (k, v) :: rest, key => if k = key then some v else jsonLookup rest key

/-- Python truthiness (`if x:`) for the JSON values in play. -/
def pyTruthy : Json → Bool
  | Json.null => false
  | Json.bool b => b
  | Json.num q => q != 0
  | Json.str s => s != ""
  | Json.arr xs => !xs.isEmpty
  | Json.obj kvs => !kvs.isEmpty

/-- Python `==` on JSON values.  Structural, except that `True`/`False`
compare equal to the numbers 1/0 as in Python.  (Numeric/bool coercion
nested inside containers is not modelled; no pipeline comparison nests
containers.) -/
def pyEq (a b : Json) : Bool :=
  match a, b with
  | Json.bool x, Json.num q => (if x then (1 : ℚ) else 0) == q
  | Json.num q, Json.bool x => q == (if x then (1 : ℚ) else 0)
  | _, _ => a == b

/-- Python `d.get(key, default)`: raises `AttributeError` when the receiver
is not a dict. -/
def pyGetD (j : Json) (key : String) (dflt : Json) : Except PyErr Json :=
  match j with
  | Json.obj kvs => pure ((jsonLookup kvs key).getD dflt)
  | _ => throw PyErr.attributeError

/-- Python subscription `c[k]` for the shapes the pipeline uses (dict with a
string key); anything else raises. -/
def pyIndex (j : Json) (key : Json) : Except PyErr Json :=
  match j, key with
  | Json.obj kvs, Json.str s =>
      match jsonLookup kvs s with
      | some v => pure v
      | none => throw PyErr.keyError
  | Json.arr _, _ => throw PyErr.typeError
  | _, _ => throw PyErr.typeError

/-- Character-list substring test (used for Python `in` on strings and the
`"<html" in text` check). -/
def charsHavePre (needle hay : List Char) : Bool :=
  match needle, hay with
  | [], _ => true
  | _ :: _, [] => false
  | n :: ns, h :: hs => n == h && charsHavePre ns hs

/-- Substring occurrence over character lists. -/
def charsHaveSub (needle hay : List Char) : Bool :=
  match hay with
  | [] => needle.isEmpty
  | _ :: hs => charsHavePre needle hay || charsHaveSub needle hs

/-- Python `needle in hay` for strings. -/
def strContainsSub (hay needle : String) : Bool :=
  charsHaveSub needle.data hay.data

/-- Python `s.startswith(prefix)`. -/
def strStartsWith (s pre : String) : Bool :=
  charsHavePre pre.data s.data

/-- ASCII lowering of one character (the company names and model replies
in play are ASCII; Python `str.lower` restricted accordingly). -/
def lowerAsciiChar (c : Char) : Char :=
  if 65 ≤ c.toNat ∧ c.toNat ≤ 90 then Char.ofNat (c.toNat + 32) else c

/-- Python `s.lower()` (ASCII). -/
def pyLowerAscii (s : String) : String := String.mk (s.data.map lowerAsciiChar)

/-- Python `s.replace(" ", "-")` (single-character pattern). -/
def replaceSpaceDash (s : String) : String :=
  String.mk (s.data.map (fun c => if c = Char.ofNat 32 then Char.ofNat 45 else c))

/-- Python `x in c` (membership).  Dict: key test; list: `==`-based element
test; string: substring test; otherwise `TypeError`. -/
def pyContains (k : String) (j : Json) : Except PyErr Bool :=
  match j with
  | Json.obj kvs => pure (jsonLookup kvs k).isSome
  | Json.arr xs => pure (xs.any (fun e => pyEq e (Json.str k)))
  | Json.str s => pure (strContainsSub s k)
  | _ => throw PyErr.typeError

/-- Numeric view of a JSON value for Python arithmetic/comparisons
(`True`/`False` act as 1/0); anything else raises `TypeError`. -/
def pyNumVal : Json → Except PyErr ℚ
  | Json.num q => pure q
  | Json.bool b => pure (if b then 1 else 0)
  | _ => throw PyErr.typeError

/-- Exact rational multiplication, written via `mkRat` so that the kernel
can evaluate it on concrete inputs (Mathlib's `Rat.mul` is irreducible);
`ratMul_eq` below identifies it with `*`. -/
def ratMul (a b : ℚ) : ℚ := mkRat (a.num * b.num) (a.den * b.den)

/-- Exact rational subtraction via `mkRat`; equals `-` by `ratSub_eq`. -/
def ratSub (a b : ℚ) : ℚ :=
  mkRat (a.num * (b.den : ℤ) - (a.den : ℤ) * b.num) (a.den * b.den)

/-- Exact rational division via `mkRat`; equals `/` by `ratDiv_eq`. -/
def ratDiv (a b : ℚ) : ℚ :=
  if (a.den : ℤ) * b.num < 0 then
    mkRat (-(a.num * (b.den : ℤ))) ((a.den : ℤ) * b.num).natAbs
  else
    mkRat (a.num * (b.den : ℤ)) ((a.den : ℤ) * b.num).natAbs

/-- `ratMul` is multiplication. -/
def ratMul_eq (a b : ℚ) : ratMul a b = a * b := by
  rw [ratMul, Rat.mkRat_eq_div]
  conv_rhs => rw [← Rat.num_div_den a, ← Rat.num_div_den b]
  rw [div_mul_div_comm]
  push_cast
  ring

/-- `ratSub` is subtraction. -/
def ratSub_eq (a b : ℚ) : ratSub a b = a - b := by
  rw [ratSub, Rat.mkRat_eq_div]
  conv_rhs => rw [← Rat.num_div_den a, ← Rat.num_div_den b]
  rw [div_sub_div _ _ (by exact_mod_cast Rat.den_ne_zero a)
    (by exact_mod_cast Rat.den_ne_zero b)]
  push_cast
  ring

/-- `ratDiv` is division. -/
def ratDiv_eq (a b : ℚ) : ratDiv a b = a / b := by
  have key : ∀ (n d : ℤ),
      (if d < 0 then mkRat (-n) d.natAbs else mkRat n d.natAbs) = (n : ℚ) / (d : ℚ) := by
    intro n d
    rcases lt_or_ge d 0 with h | h
    · rw [if_pos h, Rat.mkRat_eq_div, Int.cast_natAbs, abs_of_neg h]
      push_cast
      rw [neg_div_neg_eq]
    · rw [if_neg (not_lt.mpr h), Rat.mkRat_eq_div, Int.cast_natAbs, abs_of_nonneg h]
  rw [ratDiv, key]
  push_cast
  by_cases hb : b = 0
  · subst hb
    simp
  · have hbn : (b.num : ℚ) ≠ 0 :=
      Int.cast_ne_zero.mpr (fun h0 => hb (Rat.num_eq_zero.mp h0))
    have had : ((a.den : ℚ)) ≠ 0 := Nat.cast_ne_zero.mpr (Rat.den_ne_zero a)
    have hbd : ((b.den : ℚ)) ≠ 0 := Nat.cast_ne_zero.mpr (Rat.den_ne_zero b)
    rw [show a / b = (a.num : ℚ) / a.den / ((b.num : ℚ) / b.den) by
      rw [Rat.num_div_den, Rat.num_div_den]]
    field_simp

/-- Python `a - b` on JSON values. -/
def pySub (a b : Json) : Except PyErr Json := do
  let x ← pyNumVal a
  let y ← pyNumVal b
  pure (Json.num (ratSub x y))

/-- Python `a / b` on JSON values (true division; modelled exactly over ℚ). -/
def pyDiv (a b : Json) : Except PyErr Json := do
  let x ← pyNumVal a
  let y ← pyNumVal b
  if y = 0 then throw PyErr.zeroDivisionError else pure (Json.num (ratDiv x y))

/-- Python `a > 0` on a JSON value. -/
def pyGtZero (a : Json) : Except PyErr Bool := do
  let x ← pyNumVal a
  pure (decide (0 < x))

/-- Nearest integer with ties to even (Python `round` to 0 digits on exact
values), computed on the integer pair so the kernel can evaluate it:
`f = ⌊q⌋` and the fraction `q - f = (q.num - f * q.den) / q.den` is
compared against one half by cross-multiplication. -/
def roundHalfEven (q : ℚ) : ℤ :=
  let f : ℤ := q.num.fdiv (q.den : ℤ)
  let fracNum : ℤ := q.num - f * (q.den : ℤ)
  if 2 * fracNum < (q.den : ℤ) then f
  else if (q.den : ℤ) < 2 * fracNum then f + 1
  else if f % 2 = 0 then f else f + 1

/-- Python `round(x, 2)`, idealised over exact rationals. -/
def pyRound2 (x : ℚ) : ℚ := mkRat (roundHalfEven (ratMul x 100)) 100

/-! ## Fact extractor (src/functions/build_features/app.py, `get_latest_fact`)

The Python function is one `try:` block whose `except Exception` returns
`(None, None)`.  We embed the body in the `Except PyErr` monad
(`getLatestFactBody`) and wrap it with the catch (`get_latest_fact`).
The `fiscal_year` parameter is a `Json` value (`Json.null` models the
Python default `None`); values returned are `Json` with `Json.null` for
`None`. -/

/-- Iteration over a Python value (list comprehension source): list
elements, string characters, or dict keys; otherwise `TypeError`. -/
def pyIterElems : Json → Except PyErr (List Json)
  | Json.arr xs => pure xs
  | Json.str s => pure (s.data.map (fun c => Json.str (String.mk [c])))
  | Json.obj kvs => pure (kvs.map (fun kv => Json.str kv.1))
  | _ => throw PyErr.typeError

/-- The predicate of the list comprehension
`[f for f in fact_list if "frame" in f and f.get("form") == "10-K"]`
(Python `and` short-circuits, so `f.get` is only reached when the
membership test succeeded). -/
def isAnnualFiling (f : Json) : Except PyErr Bool := do
  let hasFrame ← pyContains "frame" f
  if hasFrame then
    let form ← pyGetD f "form" Json.null
    pure (pyEq form (Json.str "10-K"))
  else
    pure false

/-- The list comprehension itself, evaluated left to right; a fault at any
element aborts the whole comprehension as in Python. -/
def filterAnnual : List Json → Except PyErr (List Json)
  | [] => pure []
  | f :: fs => do
    let b ← isAnnualFiling f
    let rest ← filterAnnual fs
    pure (if b then f :: rest else rest)

/-- The sort key `lambda x: x.get("fy", 0)`. -/
def fyKey (f : Json) : Except PyErr Json := pyGetD f "fy" (Json.num 0)

/-- Python `<` on sort keys (numbers and strings; bools act as ints).
Mixed or unordered types raise `TypeError`, as in Python. -/
def pyLtKey (a b : Json) : Except PyErr Bool := do
  match a, b with
  | Json.str x, Json.str y => pure (decide (x < y))
  | _, _ => do
    let x ← pyNumVal a
    let y ← pyNumVal b
    pure (decide (x < y))

/-- Insert for a stable descending insertion sort by `fyKey`: an element is
placed after exactly those earlier elements whose key is strictly greater.
(Python's timsort computes all keys first and may compare a different set
of pairs; on the homogeneous keys the pipeline sees, the result and the
raise/no-raise outcome agree.) -/
def insertFyDesc (x : Json) : List Json → Except PyErr (List Json)
  | [] => pure [x]
  | y :: ys => do
    let kx ← fyKey x
    let ky ← fyKey y
    if ← pyLtKey kx ky then
      pure (y :: (← insertFyDesc x ys))
    else
      pure (x :: y :: ys)

/-- Stable descending sort by `fyKey`, modelling
`sorted(lst, key=lambda x: x.get("fy", 0), reverse=True)` /
`lst.sort(key=..., reverse=True)`. -/
def sortFyDesc : List Json → Except PyErr (List Json)
  | [] => pure []
  | x :: xs => do insertFyDesc x (← sortFyDesc xs)

/-- `next((f for f in annual_filings if f.get("fy") == fiscal_year), None)`. -/
def findFyMatch (fiscal_year : Json) : List Json → Except PyErr (Option Json)
  | [] => pure none
  | f :: fs => do
    let v ← pyGetD f "fy" Json.null
    if pyEq v fiscal_year then pure (some f) else findFyMatch fiscal_year fs

/-- Lines 14-22 of `get_latest_fact`: resolve the concept under the
`us-gaap` taxonomy and its `USD` unit list.  `none` models the early
`return None, None` for an absent concept or absent USD unit; `some`
carries the raw `units["USD"]` value. -/
def usdFactList (facts_data : Json) (fact_name : String) : Except PyErr (Option Json) := do
  let factsOuter ← pyGetD facts_data "facts" (Json.obj [])
  let facts ← pyGetD factsOuter "us-gaap" (Json.obj [])
  let mem ← pyContains fact_name facts
  if !mem then
    pure none
  else do
    let entry ← pyIndex facts (Json.str fact_name)
    let units ← pyGetD entry "units" (Json.obj [])
    let hasUsd ← pyContains "USD" units
    if !hasUsd then pure none
    else do
      let fl ← pyIndex units (Json.str "USD")
      pure (some fl)

/-- The body of the `try:` block of `get_latest_fact`. -/
def getLatestFactBody (facts_data : Json) (fact_name : String) (fiscal_year : Json) :
    Except PyErr (Json × Json) := do
  match ← usdFactList facts_data fact_name with
  | none => pure (Json.null, Json.null)
  | some flJ => do
    let fact_list ← pyIterElems flJ
    let annual_filings ← filterAnnual fact_list
    if annual_filings.isEmpty then
      -- fallback to any annual-like entries if no explicit 10-K
      if pyTruthy flJ then do
        let sorted ← sortFyDesc fact_list
        match sorted with
        | [] => throw PyErr.indexError
        | candidate :: _ => do
          let v ← pyGetD candidate "val" Json.null
          let y ← pyGetD candidate "fy" Json.null
          pure (v, y)
      else
        pure (Json.null, Json.null)
    else do
      let sorted ← sortFyDesc annual_filings
      let target0 ← match sorted with
        | [] => throw PyErr.indexError
        | t :: _ => pure t
      if pyTruthy fiscal_year then
        match ← findFyMatch fiscal_year sorted with
        | some found => do
          let v ← pyGetD found "val" Json.null
          let y ← pyGetD found "fy" Json.null
          pure (v, y)
        | none => pure (Json.null, Json.null)
      else do
        let v ← pyGetD target0 "val" Json.null
        let y ← pyGetD target0 "fy" Json.null
        pure (v, y)

/-- `get_latest_fact`: the body with its `except Exception: return None, None`. -/
def get_latest_fact (facts_data : Json) (fact_name : String) (fiscal_year : Json) :
    Json × Json :=
  match getLatestFactBody facts_data fact_name fiscal_year with
  | Except.ok r => r
  | Except.error _ => (Json.null, Json.null)

/-! ## KPI derivation and the build-features handler
(src/functions/build_features/app.py, `handler`)

The S3 blob store is abstracted as a partial map `store : String → Option
Json` from object key to the JSON document stored there (`json.loads` of
the body); a missing key raises the client error boto would raise.  The
unused `context` parameter and the log prints are dropped. -/

/-- The canonical feature record built by the handler (`features` dict). -/
structure FeatureRecord where
  company_name : Json
  cik : Json
  fiscal_year : Json
  industry : Json
  fiscal_year_end : Json
  latest_revenue_usd : Json
  yoy_revenue_growth_pct : Json
  sm_expense_as_pct_revenue : Json
  data_source : String
deriving DecidableEq, Repr

/-- Rendering of a value inside an f-string.  Only the provenance URL uses
it; container rendering is simplified (never compared across distinct
inputs by any claim). -/
def pyStrOf : Json → String
  | Json.null => "None"
  | Json.bool b => if b then "True" else "False"
  | Json.num q => if q.den = 1 then toString q.num else toString q
  | Json.str s => s
  | Json.arr _ => "<list>"
  | Json.obj _ => "<dict>"

/-- Lines 57-59: take `event.get("edgar_data") or {}` and strip one
`"Payload"` invocation-envelope level if the value is a dict containing
that key. -/
def unwrapEdgar (event : Json) : Except PyErr Json := do
  let e0 ← pyGetD event "edgar_data" Json.null
  let e1 := if pyTruthy e0 then e0 else Json.obj []
  match e1 with
  | Json.obj kvs =>
    match jsonLookup kvs "Payload" with
    | some p => pure p
    | none => pure e1
  | _ => pure e1

/-- Lines 61-65: resolve `s3_refs` from the unwrapped object, falling back
to a top-level `s3_references` key. -/
def resolveS3Refs (event : Json) (edgar_obj : Json) : Except PyErr Json := do
  let r1 ← pyGetD edgar_obj "s3_references" Json.null
  let r2 ← if pyTruthy r1 then pure r1 else pyGetD edgar_obj "s3_references" (Json.obj [])
  if pyTruthy r2 then
    pure r2
  else do
    let t ← pyGetD event "s3_references" (Json.obj [])
    pure (if pyTruthy t then t else Json.obj [])

/-- `s3.get_object` + `json.loads`: look the key up in the abstract store. -/
def s3Fetch (store : String → Option Json) (key : Json) : Except PyErr Json :=
  match key with
  | Json.str k =>
    match store k with
    | some doc => pure doc
    | none => throw (PyErr.clientError k)
  | _ => throw PyErr.typeError

/-- Lines 94-99: the year-over-year branch.  `if latest_revenue is not
None and prev_revenue is not None and prev_revenue > 0:` guards the
`try:`-wrapped quotient; the comparison itself sits outside the `try:`
and can raise. -/
def yoyBranchCalc (latest_revenue prev_revenue : Json) : Except PyErr (Option ℚ) :=
  if latest_revenue ≠ Json.null ∧ prev_revenue ≠ Json.null then do
    let gt ← pyGtZero prev_revenue
    if gt then
      -- try: (latest - prev) / prev; except: None
      pure (match (do pyDiv (← pySub latest_revenue prev_revenue) prev_revenue) with
        | Except.ok (Json.num q) => some q
        | _ => none)
    else
      pure (none : Option ℚ)
  else
    pure (none : Option ℚ)

/-- Lines 101-106: the S&M-share branch, guarded by
`latest_revenue > 0` outside the inner `try:`. -/
def smBranchCalc (latest_revenue latest_sm_expense : Json) : Except PyErr (Option ℚ) :=
  if latest_revenue ≠ Json.null ∧ latest_sm_expense ≠ Json.null then do
    let gt ← pyGtZero latest_revenue
    if gt then
      -- try: sm / latest; except: None
      pure (match pyDiv latest_sm_expense latest_revenue with
        | Except.ok (Json.num q) => some q
        | _ => none)
    else
      pure (none : Option ℚ)
  else
    pure (none : Option ℚ)

/-- Lines 86-106: derive the two KPIs from the facts document and the
already-extracted `latest_revenue` / `year` (the spec's
`derive(facts_document, latest_revenue, fiscal_year)`).  The returned
options are the pre-rounding ratios (`None` = absent). -/
def deriveKpisFrom (facts_data latest_revenue year : Json) :
    Except PyErr (Option ℚ × Option ℚ) := do
  if year ≠ Json.null ∧ latest_revenue ≠ Json.null then do
    let ym1 ← pySub year (Json.num 1)
    let prev_revenue := (get_latest_fact facts_data "Revenues" ym1).1
    let latest_sm_expense := (get_latest_fact facts_data "SalesAndMarketingExpense" year).1
    let yoy ← yoyBranchCalc latest_revenue prev_revenue
    let sm ← smBranchCalc latest_revenue latest_sm_expense
    pure (yoy, sm)
  else
    pure (none, none)

/-- Lines 61-124 of the handler, after the `edgar_data` unwrapping. -/
def buildFeaturesWithEdgar (store : String → Option Json) (event edgar_obj : Json) :
    Except PyErr FeatureRecord := do
  let s3_refs ← resolveS3Refs event edgar_obj
  let facts_key ← pyGetD s3_refs "facts_key" Json.null
  let submissions_key ← pyGetD s3_refs "submissions_key" Json.null
  if !(pyTruthy facts_key) || !(pyTruthy submissions_key) then
    throw (PyErr.valueError ("Missing S3 references in the event payload"))
  let facts_data ← s3Fetch store facts_key
  let submissions_data ← s3Fetch store submissions_key
  let c0 ← pyGetD event "cik" Json.null
  let cik ← if pyTruthy c0 then pure c0 else pyGetD edgar_obj "cik" Json.null
  let name ← pyGetD event "name" Json.null
  let lr := get_latest_fact facts_data "Revenues" Json.null
  let latest_revenue := lr.1
  let year := lr.2
  let kpis ← deriveKpisFrom facts_data latest_revenue year
  let sic_description ← pyGetD submissions_data "sicDescription" (Json.str "N/A")
  let fiscal_year_end ← pyGetD submissions_data "fiscalYearEnd" (Json.str "N/A")
  pure {
    company_name := name
    cik := cik
    fiscal_year := year
    industry := sic_description
    fiscal_year_end := fiscal_year_end
    latest_revenue_usd := latest_revenue
    yoy_revenue_growth_pct :=
      match kpis.1 with
      | some q => Json.num (pyRound2 (ratMul q 100))
      | none => Json.null
    sm_expense_as_pct_revenue :=
      match kpis.2 with
      | some q => Json.num (pyRound2 (ratMul q 100))
      | none => Json.null
    data_source := "https://www.sec.gov/edgar/browse/?CIK=" ++ pyStrOf cik }

/-- The build-features `handler`. -/
def buildFeaturesHandler (store : String → Option Json) (event : Json) :
    Except PyErr FeatureRecord := do
  let edgar_obj ← unwrapEdgar event
  buildFeaturesWithEdgar store event edgar_obj

/-! ## Brief generator / response parser
(src/functions/generate_roi_brief/app.py, `handler`)

External effects are abstracted: the extracted Bedrock reply text is the
parameter `modelText`, and the result of `json.loads(modelText.strip())`
is the parameter `modelParsed : Option Json` (`none` = `JSONDecodeError`).
`today` stands for `datetime.now(timezone.utc).strftime("%Y-%m-%d")` and
`bucket` for the `OUTPUT_BUCKET` environment variable; S3 writes and the
SES send are effect-free in the model, but the value checks they perform
on their arguments are kept.  The prompt strings (lines 33-46) influence
only the external model call and are omitted. -/

/-- One character of Python `html.escape` (quote=True default). -/
def escChar (c : Char) : String :=
  if c = Char.ofNat 38 then "&amp;"
  else if c = Char.ofNat 60 then "&lt;"
  else if c = Char.ofNat 62 then "&gt;"
  else if c = Char.ofNat 34 then "&quot;"
  else if c = Char.ofNat 39 then "&#x27;"
  else String.mk [c]

/-- Python `html.escape` on a string. -/
def htmlEscape (s : String) : String := String.join (s.data.map escChar)

/-- The fallback display document built when the model text is not valid
JSON (line 107). -/
def nonJsonFallbackHtml (raw : String) : String :=
  "<html><body><h1>LLM output (non-JSON)</h1><pre>" ++ htmlEscape raw ++
    "</pre></body></html>"

/-- Lines 100-108: strict JSON parsing of the raw model text with the
guaranteed fallback.  `modelParsed` is the outcome of
`json.loads(raw.strip())`. -/
def parse_model_output (raw : String) (modelParsed : Option Json) : Json :=
  match modelParsed with
  | some j => j
  | none =>
    Json.obj [
      ("json_data", Json.obj []),
      ("html_summary", Json.str (nonJsonFallbackHtml raw))]

/-- The BriefOutput pair: structured data and display document. -/
structure BriefOutput where
  json_data : Json
  html_summary : Json
deriving DecidableEq, Repr

/-- Lifting the two expected fields out of `llm_output` with the defaults
the handler uses at its use sites (lines 118-119): `html_summary` defaults
to `""`, `json_data` to `{}`; a non-dict `llm_output` raises
`AttributeError` at `.get`. -/
def briefOutputOf (llm_output : Json) : Except PyErr BriefOutput := do
  let hs ← pyGetD llm_output "html_summary" (Json.str "")
  let jd ← pyGetD llm_output "json_data" (Json.obj [])
  pure { json_data := jd, html_summary := hs }

/-- The response-parsing step as a whole: `parse_model_output` composed
with the field lifting. -/
def parseToBrief (raw : String) (modelParsed : Option Json) : Except PyErr BriefOutput :=
  briefOutputOf (parse_model_output raw modelParsed)

/-- Lines 17-21: take `event.get("features") or {}` and strip one
`"Payload"` envelope level. -/
def resolveFeatures (event : Json) : Except PyErr Json := do
  let f0 ← pyGetD event "features" Json.null
  let fi := if pyTruthy f0 then f0 else Json.obj []
  match fi with
  | Json.obj kvs =>
    match jsonLookup kvs "Payload" with
    | some p => pure p
    | none => pure fi
  | _ => pure fi

/-- Line 23: `event.get("bedrock", {}) or {}`. -/
def resolveBedrockCfg (event : Json) : Except PyErr Json := do
  let b ← pyGetD event "bedrock" (Json.obj [])
  pure (if pyTruthy b then b else Json.obj [])

/-- Line 24: `event.get("ses", {}) or {}`. -/
def resolveSesCfg (event : Json) : Except PyErr Json := do
  let s ← pyGetD event "ses" (Json.obj [])
  pure (if pyTruthy s then s else Json.obj [])

/-- Lines 49-62: the deterministic simulated Bedrock output. -/
def simulateBrief (features : Json) : Except PyErr Json := do
  let account_name ← pyGetD features "company_name" (Json.str "unknown")
  let fiscal_year ← pyGetD features "fiscal_year" Json.null
  let nameJ ← pyGetD features "company_name" (Json.str "unknown")
  let nameStr ← match nameJ with
    | Json.str s => pure s
    | _ => throw PyErr.attributeError
  pure (Json.obj [
    ("json_data", Json.obj [
      ("account_name", account_name),
      ("fiscal_year", fiscal_year),
      ("key_pain_points", Json.arr [
        Json.str ("Unclear sales enablement content"),
        Json.str ("Long rep ramp time")]),
      ("value_hypothesis", Json.str
        ("Reduce ramp time and improve win-rate by improving content findability and guided plays.")),
      ("next_best_action", Json.str ("Run a 30-day pilot with 3 sales teams."))]),
    ("html_summary", Json.str
      ("<html><body><h1>Simulated ROI Brief: " ++ htmlEscape nameStr ++
        "</h1><p>Key hypothesis and actions.</p></body></html>"))])

/-- The `llm_output` computation (lines 49-108), branching on the
simulate flag. -/
def computeLlm (features simFlag : Json) (modelText : String) (modelParsed : Option Json) :
    Except PyErr Json :=
  if pyTruthy simFlag then simulateBrief features
  else pure (parse_model_output modelText modelParsed)

/-- Lines 112-119: the value side of persisting the two artifacts — the
company-name slug for the keys, plus the `.encode` requirement that the
stored `html_summary` be a string. -/
def persistPrep (features llm_output : Json) : Except PyErr String := do
  let cnJ ← pyGetD features "company_name" (Json.str "unknown")
  let cn ← match cnJ with
    | Json.str s => pure s
    | _ => throw PyErr.attributeError
  let slug := replaceSpaceDash (pyLowerAscii cn)
  let hsJ ← pyGetD llm_output "html_summary" (Json.str "")
  match hsJ with
  | Json.str _ => pure slug
  | _ => throw PyErr.attributeError

/-- The generate-roi-brief `handler`. -/
def generateRoiBriefHandler (bucket today : String) (event : Json)
    (modelText : String) (modelParsed : Option Json) : Except PyErr Json := do
  let features ← resolveFeatures event
  let bedrock_cfg ← resolveBedrockCfg event
  let ses_cfg ← resolveSesCfg event
  if !(pyTruthy features) then
    throw (PyErr.valueError ("Features data is missing"))
  let simFlag ← pyGetD bedrock_cfg "simulate" (Json.bool false)
  let llm_output ← computeLlm features simFlag modelText modelParsed
  let _slug ← persistPrep features llm_output
  let sender ← pyGetD ses_cfg "sender" Json.null
  let recipient ← pyGetD ses_cfg "recipient" Json.null
  let _subject := "Account ROI Brief: " ++
    pyStrOf (← pyGetD features "company_name" (Json.str "N/A"))
  if !(pyTruthy sender) || !(pyTruthy recipient) then
    throw (PyErr.valueError ("SES sender or recipient missing"))
  pure (Json.obj [
    ("status", Json.str "success"),
    ("s3_path", Json.str ("s3://" ++ bucket ++ "/" ++ today ++ "/"))])

/-! ## Analyze-and-notify handler
(src/functions/analyze_and_notify/app.py, `handler`)

The whole Python body sits in a `try:` whose `except` re-raises the same
exception, so faults pass through unchanged and no catch is modelled.
`envBedrockRegion` stands for `os.getenv("BEDROCK_REGION")`, `today` for
the UTC date string, `bedrockResp` for the parsed Bedrock response body
and `sesResp` for the SES `send_email` response.  Log prints are dropped
except where they can raise (`list(agg.keys())` at line 40, `len(...)` at
line 55 and the `[:500]` preview slice at line 56). -/

/-- Python `len`. -/
def pyLen : Json → Except PyErr Nat
  | Json.str s => pure s.length
  | Json.arr xs => pure xs.length
  | Json.obj kvs => pure kvs.length
  | _ => throw PyErr.typeError

/-- A `[:500]` slice is valid on strings and lists only. -/
def pySliceOk : Json → Except PyErr Unit
  | Json.str _ => pure ()
  | Json.arr _ => pure ()
  | _ => throw PyErr.typeError

/-- Python `x += s` for a string literal `s`: string concatenation, or
list extension by the characters (Python `list += str` extends). -/
def pyAppendStr (a : Json) (s : String) : Except PyErr Json :=
  match a with
  | Json.str t => pure (Json.str (t ++ s))
  | Json.arr xs => pure (Json.arr (xs ++ s.data.map (fun c => Json.str (String.mk [c]))))
  | _ => throw PyErr.typeError

/-- Python `int(x)` on the shapes in play (numeric-string parsing is not
modelled; any such input raises here as a generic fault). -/
def pyToInt : Json → Except PyErr Int
  | Json.num q => pure (q.num.tdiv (q.den : Int))
  | Json.bool b => pure (if b then 1 else 0)
  | _ => throw PyErr.typeError

/-- Python `float(x)` on the shapes in play. -/
def pyToFloat : Json → Except PyErr ℚ
  | Json.num q => pure q
  | Json.bool b => pure (if b then 1 else 0)
  | _ => throw PyErr.typeError

/-- The test content appended when `source_count == 0` (line 66). -/
def testSourceContent : String :=
  "\n\n##### SOURCE 1\nURL: https://example.com\n----- BEGIN CONTENT -----\nThis is test content for pipeline testing.\n----- END CONTENT -----\n"

/-- Lines 69-74: region resolution with the unresolved-CloudFormation
guard (`"$\x7b"` is the literal dollar-brace prefix). -/
def resolveBedrockRegion (envRegion : Option String) (bcfg : Json) : Except PyErr String := do
  let r0 ← pyGetD bcfg "region" Json.null
  let r := if pyTruthy r0 then r0 else Json.str (envRegion.getD "us-west-2")
  match r with
  | Json.str s =>
    pure (if s = "$\x7bAWS::Region\x7d" || strStartsWith s ("$\x7b") then "us-west-2" else s)
  | _ => throw PyErr.attributeError

/-- The accumulation loop over Claude content blocks (lines 125-127). -/
def collectTextBlocks (acc : String) : List Json → Except PyErr String
  | [] => pure acc
  | b :: bs => do
    let t ← pyGetD b "type" Json.null
    if pyEq t (Json.str "text") then do
      let tx ← pyGetD b "text" (Json.str "")
      match tx with
      | Json.str s => collectTextBlocks (acc ++ s) bs
      | _ => throw PyErr.typeError
    else
      collectTextBlocks acc bs

/-- Lines 123-127: extract the reply text from the response body. -/
def extractLlmText (resp : Json) : Except PyErr String := do
  let hasContent ← pyContains "content" resp
  if hasContent then do
    let contentJ ← pyIndex resp (Json.str "content")
    match contentJ with
    | Json.arr blocks =>
      if blocks.isEmpty then pure "" else collectTextBlocks "" blocks
    | _ => pure ""
  else
    pure ""

/-- Lines 36-42: `event.get(X) or {}` for the three configuration keys. -/
def anResolveCfgs (event : Json) : Except PyErr (Json × Json × Json) := do
  let a0 ← pyGetD event "aggregated" Json.null
  let agg := if pyTruthy a0 then a0 else Json.obj []
  let b0 ← pyGetD event "bedrock" Json.null
  let bedrock_cfg := if pyTruthy b0 then b0 else Json.obj []
  let s0 ← pyGetD event "ses" Json.null
  let ses_cfg := if pyTruthy s0 then s0 else Json.obj []
  pure (agg, bedrock_cfg, ses_cfg)

/-- Lines 40-49: the `list(agg.keys())` log line (raises on a non-dict)
and the single-level `Payload` unwrap. -/
def anAggData (agg : Json) : Except PyErr Json := do
  let _ ← match agg with
    | Json.obj _ => pure ()
    | _ => throw PyErr.attributeError
  let hasPayload ← pyContains "Payload" agg
  if hasPayload then pyIndex agg (Json.str "Payload") else pure agg

/-- Lines 63-66: append the test content when `source_count == 0`. -/
def anAugmentPrompt (pc0 sc : Json) : Except PyErr Json :=
  if pyEq sc (Json.num 0) then pyAppendStr pc0 testSourceContent else pure pc0

/-- Lines 68-77: region/model/token/temperature resolution. -/
def anBedrockParams (envRegion : Option String) (bcfg : Json) :
    Except PyErr (String × Json × Int × ℚ) := do
  let region ← resolveBedrockRegion envRegion bcfg
  let m0 ← pyGetD bcfg "model_id" Json.null
  let model_id := if pyTruthy m0 then m0
    else Json.str ("anthropic.claude-3-sonnet-20240229-v1:0")
  let mt ← pyToInt (← pyGetD bcfg "max_tokens" (Json.num 2000))
  let tp ← pyToFloat (← pyGetD bcfg "temperature" (Json.num (mkRat 1 5)))
  pure (region, model_id, mt, tp)

/-- The analyze-and-notify `handler`. -/
def analyzeNotifyHandler (envBedrockRegion : Option String) (today : String)
    (bedrockResp sesResp : Json) (event : Json) : Except PyErr Json := do
  let cfgs ← anResolveCfgs event
  let agg := cfgs.1
  let bedrock_cfg := cfgs.2.1
  let ses_cfg := cfgs.2.2
  let agg_data ← anAggData agg
  let prompt_context0 ← pyGetD agg_data "prompt_context" (Json.str "")
  let source_count ← pyGetD agg_data "source_count" (Json.num 0)
  let _ ← pyLen prompt_context0
  let _ ← pySliceOk prompt_context0
  if pyTruthy prompt_context0 = false then
    pure (Json.obj [("error", Json.str ("No aggregated content to analyze"))])
  else do
    let _prompt_context ← anAugmentPrompt prompt_context0 source_count
    let params ← anBedrockParams envBedrockRegion bedrock_cfg
    let model_id := params.2.1
    let llm_text0 ← extractLlmText bedrockResp
    let llm_text := if llm_text0 = "" then "<p>No response text produced.</p>" else llm_text0
    let _html_body := if strContainsSub (pyLowerAscii llm_text) ("<html") then llm_text
      else "<html><body>\n<h1>Daily Web Intel - " ++ today ++ "</h1>\n" ++ llm_text ++
        "\n</body></html>"
    let sender ← pyGetD ses_cfg "sender" Json.null
    let recipient ← pyGetD ses_cfg "recipient" Json.null
    let subject ← pyGetD ses_cfg "subject" (Json.str ("Daily Web Intel"))
    if pyTruthy sender = false ∨ pyTruthy recipient = false then
      pure (Json.obj [("error", Json.str ("SES sender or recipient missing"))])
    else do
      let message_id ← pyGetD sesResp "MessageId" Json.null
      pure (Json.obj [
        ("status", Json.str "sent"),
        ("recipient", recipient),
        ("subject", subject),
        ("model", model_id),
        ("message_id", message_id)])

/-! ## Concrete fixtures

Small concrete documents and events used by the scenario theorems,
counterexamples and witnesses. -/

/-- Annual (frame + 10-K) revenue observation: 100 in fiscal year 2023. -/
def obsRev2023 : Json := Json.obj [("val", Json.num 100), ("fy", Json.num 2023),
  ("fp", Json.str "FY"), ("form", Json.str "10-K"), ("frame", Json.str "CY2023")]

/-- Annual (frame + 10-K) revenue observation: 80 in fiscal year 2022. -/
def obsRev2022 : Json := Json.obj [("val", Json.num 80), ("fy", Json.num 2022),
  ("fp", Json.str "FY"), ("form", Json.str "10-K"), ("frame", Json.str "CY2022")]

/-- Annual (frame + 10-K) S&M expense observation: 20 in fiscal year 2023. -/
def obsSm2023 : Json := Json.obj [("val", Json.num 20), ("fy", Json.num 2023),
  ("fp", Json.str "FY"), ("form", Json.str "10-K"), ("frame", Json.str "CY2023")]

/-- A facts document with annual (frame + 10-K) revenue 100 in fy 2023 and
80 in fy 2022, and S&M expense 20 in fy 2023. -/
def factsFix : Json := Json.obj [("facts", Json.obj [("us-gaap", Json.obj [
  ("Revenues", Json.obj [("units", Json.obj [("USD",
    Json.arr [obsRev2023, obsRev2022])])]),
  ("SalesAndMarketingExpense", Json.obj [("units", Json.obj [("USD",
    Json.arr [obsSm2023])])])])])]

/-- A submissions document with industry and fiscal-year-end metadata. -/
def subsFix : Json := Json.obj [
  ("sicDescription", Json.str "Services"), ("fiscalYearEnd", Json.str "1231")]

/-- A blob store holding the two fixture documents. -/
def storeFix : String → Option Json := fun k =>
  if k = "facts" then some factsFix else if k = "subs" then some subsFix else none

/-- A build-features event carrying the storage references at top level. -/
def eventFix : Json := Json.obj [
  ("s3_references", Json.obj [
    ("facts_key", Json.str "facts"), ("submissions_key", Json.str "subs")]),
  ("name", Json.str "Acme"), ("cik", Json.num 123)]

/-- A facts document whose only revenue observation carries no frame
marker and no 10-K form: the extractor's non-annual fallback applies. -/
def factsNoAnnual : Json := Json.obj [("facts", Json.obj [("us-gaap", Json.obj [
  ("Revenues", Json.obj [("units", Json.obj [("USD", Json.arr [
    Json.obj [("val", Json.num 5), ("fy", Json.num 2023)]])])])])])]

/-- A facts document whose only revenue observation is annual (frame +
10-K) but lacks the `fy` field. -/
def factsNoFy : Json := Json.obj [("facts", Json.obj [("us-gaap", Json.obj [
  ("Revenues", Json.obj [("units", Json.obj [("USD", Json.arr [
    Json.obj [("val", Json.num 5), ("form", Json.str "10-K"),
      ("frame", Json.str "CY2023")]])])])])])]

/-- The entries of the domain payload (storage references + cik) used for
the wrapping scenarios. -/
def payloadEntries : List (String × Json) := [
  ("s3_references", Json.obj [
    ("facts_key", Json.str "facts"), ("submissions_key", Json.str "subs")]),
  ("cik", Json.num 123)]

/-- The domain payload (storage references + cik) used for the wrapping
scenarios. -/
def payloadFix : Json := Json.obj payloadEntries

/-- The payload wrapped in two nested `Payload` envelope levels. -/
def eventWrappedTwice : Json := Json.obj [
  ("edgar_data", Json.obj [("Payload", Json.obj [("Payload", payloadFix)])]),
  ("name", Json.str "Acme")]

/-- The payload wrapped in one `Payload` envelope level. -/
def eventWrappedOnce : Json := Json.obj [
  ("edgar_data", Json.obj [("Payload", payloadFix)]),
  ("name", Json.str "Acme")]

/-- The payload passed unwrapped under the domain key. -/
def eventUnwrapped : Json := Json.obj [
  ("edgar_data", payloadFix),
  ("name", Json.str "Acme")]

/-- The feature record all successful fixture runs produce. -/
def featuresFix : FeatureRecord := {
  company_name := Json.str "Acme"
  cik := Json.num 123
  fiscal_year := Json.num 2023
  industry := Json.str "Services"
  fiscal_year_end := Json.str "1231"
  latest_revenue_usd := Json.num 100
  yoy_revenue_growth_pct := Json.num 25
  sm_expense_as_pct_revenue := Json.num 20
  data_source := "https://www.sec.gov/edgar/browse/?CIK=123" }

/-- An analyze-and-notify event with aggregated content but an empty SES
configuration (no sender/recipient). -/
def eventNoSender : Json := Json.obj [
  ("aggregated", Json.obj [
    ("prompt_context", Json.str "hello"), ("source_count", Json.num 1)]),
  ("ses", Json.obj [])]

/-- A parsed Bedrock response body with a single text content block. -/
def bedrockRespFix : Json := Json.obj [
  ("content", Json.arr [Json.obj [
    ("type", Json.str "text"), ("text", Json.str "<html><body>ok</body></html>")]])]

/-- A facts document where the concept exists but has no USD unit list. -/
def factsNoUsd : Json := Json.obj [("facts", Json.obj [("us-gaap", Json.obj [
  ("Revenues", Json.obj [("units", Json.obj [("EUR", Json.arr [])])])])])]

/-! # Helper lemmas -/

theorem pure_eq_ok {α : Type} (a : α) : (pure a : Except PyErr α) = Except.ok a := rfl

theorem ok_bind {α β : Type} (a : α) (f : α → Except PyErr β) :
    (Except.ok a >>= f) = f a := rfl

theorem error_bind {α β : Type} (e : PyErr) (f : α → Except PyErr β) :
    ((Except.error e : Except PyErr α) >>= f) = Except.error e := rfl

theorem throw_bind {α β : Type} (e : PyErr) (f : α → Except PyErr β) :
    ((throw e : Except PyErr α) >>= f) = Except.error e := rfl

theorem throw_eq_error {α : Type} (e : PyErr) :
    (throw e : Except PyErr α) = Except.error e := rfl

theorem pySub_num (a b : ℚ) :
    pySub (Json.num a) (Json.num b) = Except.ok (Json.num (ratSub a b)) := rfl

/-- The yoy branch yields absent when the prior revenue is `None`. -/
theorem yoyBranch_prev_null (latest : Json) :
    yoyBranchCalc latest Json.null = Except.ok none := by
  simp [yoyBranchCalc, pure_eq_ok]

/-- The yoy branch yields absent when the prior revenue is non-positive. -/
theorem yoyBranch_prev_nonpos (latest : Json) (q : ℚ) (hq : q ≤ 0) :
    yoyBranchCalc latest (Json.num q) = Except.ok none := by
  rw [yoyBranchCalc]
  by_cases h : latest = Json.null
  · subst h
    simp [pure_eq_ok]
  · rw [if_pos ⟨h, by simp⟩]
    simp [pyGtZero, pyNumVal, ok_bind, pure_eq_ok, not_lt.mpr hq]

/-- The S&M branch yields absent when the latest revenue is non-positive. -/
theorem smBranch_latest_nonpos (l : ℚ) (hl : l ≤ 0) (sm : Json) :
    smBranchCalc (Json.num l) sm = Except.ok none := by
  rw [smBranchCalc]
  by_cases h : sm = Json.null
  · subst h
    simp [pure_eq_ok]
  · rw [if_pos ⟨by simp, h⟩]
    simp [pyGtZero, pyNumVal, ok_bind, pure_eq_ok, not_lt.mpr hl]

/-- The S&M branch never raises when the latest revenue is numeric. -/
theorem smBranch_isOk (l : ℚ) (sm : Json) :
    ∃ v, smBranchCalc (Json.num l) sm = Except.ok v := by
  rw [smBranchCalc]
  by_cases h : sm = Json.null
  · subst h
    simp [pure_eq_ok]
  · rw [if_pos ⟨by simp, h⟩]
    simp only [pyGtZero, pyNumVal, ok_bind, pure_eq_ok]
    by_cases h0 : (0 : ℚ) < l
    · simp [h0]
    · simp [h0]

/-- The yoy branch either raises or returns. -/
theorem yoyBranch_cases (latest prev : Json) :
    (∃ e, yoyBranchCalc latest prev = Except.error e) ∨
    (∃ w, yoyBranchCalc latest prev = Except.ok w) := by
  cases h : yoyBranchCalc latest prev
  · exact Or.inl ⟨_, rfl⟩
  · exact Or.inr ⟨_, rfl⟩

/-- A fault in the extractor body is absorbed into `(None, None)`. -/
theorem glf_body_error (fd : Json) (fn : String) (fy : Json) (e : PyErr) :
    getLatestFactBody fd fn fy = Except.error e →
    get_latest_fact fd fn fy = (Json.null, Json.null) := by
  intro h
  simp [get_latest_fact, h]

/-- A normal extractor body result is returned as is. -/
theorem glf_body_ok (fd : Json) (fn : String) (fy : Json) (r : Json × Json) :
    getLatestFactBody fd fn fy = Except.ok r → get_latest_fact fd fn fy = r := by
  intro h
  simp [get_latest_fact, h]

/-- Inserting into the descending sort adds exactly one element. -/
theorem insertFyDesc_length (x : Json) :
    ∀ (l l' : List Json), insertFyDesc x l = Except.ok l' → l'.length = l.length + 1 := by
  intro l
  induction l with
  | nil =>
    intro l' h
    simp only [insertFyDesc, pure_eq_ok, Except.ok.injEq] at h
    subst h
    rfl
  | cons y ys ih =>
    intro l' h
    simp only [insertFyDesc] at h
    cases hkx : fyKey x with
    | error e => rw [hkx, error_bind] at h; simp at h
    | ok kx =>
      rw [hkx, ok_bind] at h
      cases hky : fyKey y with
      | error e => rw [hky, error_bind] at h; simp at h
      | ok ky =>
        rw [hky, ok_bind] at h
        cases hlt : pyLtKey kx ky with
        | error e => rw [hlt, error_bind] at h; simp at h
        | ok b =>
          rw [hlt, ok_bind] at h
          cases b with
          | true =>
            simp only [if_true] at h
            cases hrec : insertFyDesc x ys with
            | error e => rw [hrec, error_bind] at h; simp at h
            | ok r =>
              rw [hrec, ok_bind] at h
              simp only [pure_eq_ok, Except.ok.injEq] at h
              subst h
              simp [ih r hrec]
          | false =>
            simp only [Bool.false_eq_true, if_false, pure_eq_ok, Except.ok.injEq] at h
            subst h
            rfl

/-- The descending sort preserves length. -/
theorem sortFyDesc_length :
    ∀ (l l' : List Json), sortFyDesc l = Except.ok l' → l'.length = l.length := by
  intro l
  induction l with
  | nil =>
    intro l' h
    simp only [sortFyDesc, pure_eq_ok, Except.ok.injEq] at h
    subst h
    rfl
  | cons x xs ih =>
    intro l' h
    simp only [sortFyDesc] at h
    cases hs : sortFyDesc xs with
    | error e => rw [hs, error_bind] at h; simp at h
    | ok r =>
      rw [hs, ok_bind] at h
      rw [insertFyDesc_length x r l' h, ih r hs]
      rfl

/-- A successful exact-year search returns an entry whose `fy` field
Python-equals the requested year. -/
theorem findFyMatch_some (fy : Json) :
    ∀ (l : List Json) (f : Json), findFyMatch fy l = Except.ok (some f) →
      ∃ v, pyGetD f "fy" Json.null = Except.ok v ∧ pyEq v fy = true := by
  intro l
  induction l with
  | nil =>
    intro f h
    simp [findFyMatch, pure_eq_ok] at h
  | cons g gs ih =>
    intro f h
    simp only [findFyMatch] at h
    cases hv : pyGetD g "fy" Json.null with
    | error e => rw [hv, error_bind] at h; simp at h
    | ok v =>
      rw [hv, ok_bind] at h
      by_cases hEq : pyEq v fy = true
      · rw [if_pos hEq] at h
        simp only [pure_eq_ok, Except.ok.injEq, Option.some.injEq] at h
        subst h
        exact ⟨v, hv, hEq⟩
      · rw [if_neg hEq] at h
        exact ih f h

/-- The post-unwrap part of the build-features handler only reads the
event at three keys; events agreeing there are interchangeable. -/
theorem buildFeaturesWithEdgar_event_congr (store : String → Option Json)
    (e1 e2 eo : Json)
    (h1 : pyGetD e1 "s3_references" (Json.obj []) = pyGetD e2 "s3_references" (Json.obj []))
    (h2 : pyGetD e1 "cik" Json.null = pyGetD e2 "cik" Json.null)
    (h3 : pyGetD e1 "name" Json.null = pyGetD e2 "name" Json.null) :
    buildFeaturesWithEdgar store e1 eo = buildFeaturesWithEdgar store e2 eo := by
  simp only [buildFeaturesWithEdgar, resolveS3Refs, h1, h2, h3]

/-- When annual observations exist and a specific (truthy) fiscal year is
requested, the extractor body reduces to the exact-year search over the
sorted annual list. -/
theorem body_eq_findBranch (fd : Json) (fn : String) (fy : Json) (flJ : Json)
    (l af saf : List Json) (t : Json) (ts : List Json) :
    usdFactList fd fn = Except.ok (some flJ) →
    pyIterElems flJ = Except.ok l →
    filterAnnual l = Except.ok af →
    af ≠ [] →
    sortFyDesc af = Except.ok saf →
    saf = t :: ts →
    pyTruthy fy = true →
    getLatestFactBody fd fn fy =
      (do
        match ← findFyMatch fy saf with
        | some found => do
          let v ← pyGetD found "val" Json.null
          let yy ← pyGetD found "fy" Json.null
          pure (v, yy)
        | none => pure (Json.null, Json.null)) := by
  intro husd hiter hfil hne hsort hsaf htr
  subst hsaf
  simp only [getLatestFactBody, husd, ok_bind, hiter, hfil]
  rw [if_neg (fun hemp => hne (List.isEmpty_iff.mp hemp))]
  simp only [hsort, ok_bind, htr, if_true, pure_eq_ok]

/-! # Claim theorems -/

/-- C1, counterexample: the claim says `parse_model_output` returns a
BriefOutput and never raises for **every** raw model text, with the two
fields lifted whenever the text parses as strict JSON.  The raw text
`"42"` parses as strict JSON (to the number 42), yet lifting the two
fields out of the non-dict value raises `AttributeError` (in the code,
`llm_output.get(...)` at the S3/SES use sites), so the pipeline aborts
instead of producing a BriefOutput. -/
theorem claimC1_counterexample :
    parseToBrief "42" (some (Json.num 42)) = Except.error PyErr.attributeError := by
  decide

/-- C1 (amended): for every raw model output text, if the text parses as a
strict JSON **object**, the BriefOutput's two fields equal that object's
`json_data` and `html_summary` values exactly (defaulting to an empty
mapping / empty document only when a field is absent); if the text does
not parse as JSON, the call still returns a BriefOutput whose structured
data is an empty mapping and whose display document is non-empty and
contains the original raw text HTML-escaped.  Only a text parsing to a
non-object JSON value escapes this guarantee. -/
theorem claimC1_theorem :
    (∀ (raw : String) (kvs : List (String × Json)),
      parseToBrief raw (some (Json.obj kvs)) = Except.ok {
        json_data := (jsonLookup kvs "json_data").getD (Json.obj []),
        html_summary := (jsonLookup kvs "html_summary").getD (Json.str "") }) ∧
    (∀ raw : String,
      parseToBrief raw none = Except.ok {
        json_data := Json.obj [],
        html_summary := Json.str (nonJsonFallbackHtml raw) } ∧
      nonJsonFallbackHtml raw ≠ "" ∧
      ∃ pre post : String, nonJsonFallbackHtml raw = pre ++ htmlEscape raw ++ post) := by
  constructor
  · intro raw kvs
    rfl
  · intro raw
    refine ⟨rfl, ?_, ?_⟩
    · intro hemp
      have h2 := congrArg String.length hemp
      rw [nonJsonFallbackHtml, String.length_append, String.length_append,
        show ("<html><body><h1>LLM output (non-JSON)</h1><pre>" : String).length = 47
          by decide,
        show ("" : String).length = 0 by decide] at h2
      omega
    · exact ⟨"<html><body><h1>LLM output (non-JSON)</h1><pre>",
        "</pre></body></html>", rfl⟩

/-- C8: on a facts document with annual revenue 100 (fy 2023, 10-K) and 80
(fy 2022, 10-K) and S&M expense 20 (fy 2023, 10-K), the feature record has
latest revenue 100, year-over-year growth 25.0 percent and S&M share 20.0
percent (rounded to two decimals). -/
theorem claimC8_theorem :
    buildFeaturesHandler storeFix eventFix = Except.ok featuresFix ∧
    featuresFix.latest_revenue_usd = Json.num 100 ∧
    featuresFix.yoy_revenue_growth_pct = Json.num 25 ∧
    featuresFix.sm_expense_as_pct_revenue = Json.num 20 := by
  decide

/-- C10: an extractor result can be non-absent with a `None` fiscal year:
on a document whose only annual observation lacks the `fy` field, the
value is returned with a `None` year. -/
theorem claimC10_theorem :
    get_latest_fact factsNoFy "Revenues" Json.null = (Json.num 5, Json.null) ∧
    Json.num 5 ≠ Json.null := by
  decide

/-- C2, counterexample: the claim says unwrapping tolerates **arbitrary**
nesting depth.  A payload wrapped in two `Payload` envelope levels makes
the build-features stage raise the missing-references fault, while the
unwrapped form succeeds — only one envelope level is stripped. -/
theorem claimC2_counterexample :
    buildFeaturesHandler storeFix eventWrappedTwice =
      Except.error (PyErr.valueError ("Missing S3 references in the event payload")) ∧
    buildFeaturesHandler storeFix eventUnwrapped = Except.ok featuresFix := by
  decide

/-- C3, counterexample: the claim says an explicit-year lookup never
returns a value from a different year.  On a document with no annual
(frame + 10-K) observations the fallback path ignores the requested year
2022 entirely and returns the 2023 value. -/
theorem claimC3_counterexample :
    get_latest_fact factsNoAnnual "Revenues" (Json.num 2022) =
      (Json.num 5, Json.num 2023) ∧
    pyEq (Json.num 2023) (Json.num 2022) = false ∧
    (Json.num 5, Json.num 2023) ≠ (Json.null, Json.null) := by
  decide

/-- C5, counterexample: annual observations exist (fy 2023 and 2022) and
none of them carries the explicitly requested fiscal year 0, yet the
extractor returns the latest annual value instead of `(None, None)`: the
Python truthiness test `if fiscal_year:` treats the explicit year 0 as
"no year requested". -/
theorem claimC5_counterexample :
    filterAnnual [obsRev2023, obsRev2022] = Except.ok [obsRev2023, obsRev2022] ∧
    findFyMatch (Json.num 0) [obsRev2023, obsRev2022] = Except.ok none ∧
    get_latest_fact factsFix "Revenues" (Json.num 0) = (Json.num 100, Json.num 2023) ∧
    (Json.num 100, Json.num 2023) ≠ (Json.null, Json.null) := by
  decide

/-- C4, counterexample: the claim says a stage faced with a missing
notification sender/recipient raises a fault.  The analyze-and-notify
stage instead **returns** an error-valued result (`{"error": ...}`) when
the SES sender and recipient are absent. -/
theorem claimC4_counterexample :
    analyzeNotifyHandler none "2026-10-12" bedrockRespFix (Json.obj []) eventNoSender =
      Except.ok (Json.obj [("error", Json.str ("SES sender or recipient missing"))]) := by
  decide

/-- C6: the extractor returns without raising for every input — any
internal fault is absorbed into `(None, None)` — and in particular an
absent concept or an absent USD unit list yields `(None, None)`. -/
theorem claimC6_theorem :
    (∀ (fd : Json) (fn : String) (fy : Json) (e : PyErr),
      getLatestFactBody fd fn fy = Except.error e →
      get_latest_fact fd fn fy = (Json.null, Json.null)) ∧
    (∀ (fd : Json) (fn : String) (fy : Json) (fo facts : Json),
      pyGetD fd "facts" (Json.obj []) = Except.ok fo →
      pyGetD fo "us-gaap" (Json.obj []) = Except.ok facts →
      pyContains fn facts = Except.ok false →
      get_latest_fact fd fn fy = (Json.null, Json.null)) ∧
    (∀ (fd : Json) (fn : String) (fy : Json) (fo facts entry units : Json),
      pyGetD fd "facts" (Json.obj []) = Except.ok fo →
      pyGetD fo "us-gaap" (Json.obj []) = Except.ok facts →
      pyContains fn facts = Except.ok true →
      pyIndex facts (Json.str fn) = Except.ok entry →
      pyGetD entry "units" (Json.obj []) = Except.ok units →
      pyContains "USD" units = Except.ok false →
      get_latest_fact fd fn fy = (Json.null, Json.null)) := by
  refine ⟨?_, ?_, ?_⟩
  · intro fd fn fy e h
    simp [get_latest_fact, h]
  · intro fd fn fy fo facts h1 h2 h3
    have husd : usdFactList fd fn = Except.ok none := by
      simp [usdFactList, h1, h2, h3, ok_bind, pure_eq_ok]
    simp [get_latest_fact, getLatestFactBody, husd, ok_bind, pure_eq_ok]
  · intro fd fn fy fo facts entry units h1 h2 h3 h4 h5 h6
    have husd : usdFactList fd fn = Except.ok none := by
      simp [usdFactList, h1, h2, h3, h4, h5, h6, ok_bind, pure_eq_ok]
    simp [get_latest_fact, getLatestFactBody, husd, ok_bind, pure_eq_ok]

/-- C6, witness: the three conjuncts applied at a non-dict document (the
body raises `AttributeError`), an empty document (concept absent) and a
document whose concept has no USD unit list. -/
theorem claimC6_witness :
    get_latest_fact (Json.num 3) "Revenues" Json.null = (Json.null, Json.null) ∧
    get_latest_fact (Json.obj []) "Revenues" Json.null = (Json.null, Json.null) ∧
    get_latest_fact factsNoUsd "Revenues" Json.null = (Json.null, Json.null) :=
  ⟨claimC6_theorem.1 (Json.num 3) "Revenues" Json.null PyErr.attributeError (by decide),
   claimC6_theorem.2.1 (Json.obj []) "Revenues" Json.null (Json.obj []) (Json.obj [])
     (by decide) (by decide) (by decide),
   claimC6_theorem.2.2 factsNoUsd "Revenues" Json.null
     (Json.obj [("us-gaap", Json.obj [("Revenues",
        Json.obj [("units", Json.obj [("EUR", Json.arr [])])])])])
     (Json.obj [("Revenues", Json.obj [("units", Json.obj [("EUR", Json.arr [])])])])
     (Json.obj [("units", Json.obj [("EUR", Json.arr [])])])
     (Json.obj [("EUR", Json.arr [])])
     (by decide) (by decide) (by decide) (by decide) (by decide) (by decide)⟩

/-- C7: KPI null-propagation.  (1) If the resolved fiscal year or the
latest revenue is `None`, both KPIs are absent and no computation is
attempted.  (2) If the prior-year revenue (the exact-year extraction at
`fiscal_year - 1`) is absent or not strictly positive, the yoy growth is
absent.  (3) If the latest revenue is not strictly positive, the S&M
share is absent. -/
theorem claimC7_theorem :
    (∀ (fd latest year : Json), year = Json.null ∨ latest = Json.null →
      deriveKpisFrom fd latest year = Except.ok (none, none)) ∧
    (∀ (fd : Json) (l y : ℚ) (r : Option ℚ × Option ℚ),
      deriveKpisFrom fd (Json.num l) (Json.num y) = Except.ok r →
      ((get_latest_fact fd "Revenues" (Json.num (y - 1))).1 = Json.null ∨
       ∃ q : ℚ, q ≤ 0 ∧ (get_latest_fact fd "Revenues" (Json.num (y - 1))).1 = Json.num q) →
      r.1 = none) ∧
    (∀ (fd : Json) (l y : ℚ) (r : Option ℚ × Option ℚ),
      deriveKpisFrom fd (Json.num l) (Json.num y) = Except.ok r →
      l ≤ 0 → r.2 = none) := by
  refine ⟨?_, ?_, ?_⟩
  · intro fd latest year h
    rcases h with h | h <;> subst h <;> simp [deriveKpisFrom, pure_eq_ok]
  · intro fd l y r hok hprev
    rw [← ratSub_eq y 1] at hprev
    obtain ⟨v, hv⟩ := smBranch_isOk l
      ((get_latest_fact fd "SalesAndMarketingExpense" (Json.num y)).1)
    have hyoy : yoyBranchCalc (Json.num l)
        ((get_latest_fact fd "Revenues" (Json.num (ratSub y 1))).1) = Except.ok none := by
      rcases hprev with h | ⟨q, hq, h⟩
      · rw [h]
        exact yoyBranch_prev_null (Json.num l)
      · rw [h]
        exact yoyBranch_prev_nonpos (Json.num l) q hq
    have hcomp : deriveKpisFrom fd (Json.num l) (Json.num y) = Except.ok (none, v) := by
      rw [deriveKpisFrom, if_pos ⟨by simp, by simp⟩]
      simp [pySub_num, ok_bind, pure_eq_ok, hyoy, hv]
    rw [hcomp] at hok
    cases hok
    rfl
  · intro fd l y r hok hl
    have hsm : smBranchCalc (Json.num l)
        ((get_latest_fact fd "SalesAndMarketingExpense" (Json.num y)).1) = Except.ok none :=
      smBranch_latest_nonpos l hl _
    rcases yoyBranch_cases (Json.num l)
        ((get_latest_fact fd "Revenues" (Json.num (ratSub y 1))).1) with ⟨e, he⟩ | ⟨w, hw⟩
    · have hcomp : deriveKpisFrom fd (Json.num l) (Json.num y) = Except.error e := by
        rw [deriveKpisFrom, if_pos ⟨by simp, by simp⟩]
        simp [pySub_num, ok_bind, error_bind, pure_eq_ok, he]
      rw [hcomp] at hok
      cases hok
    · have hcomp : deriveKpisFrom fd (Json.num l) (Json.num y) = Except.ok (w, none) := by
        rw [deriveKpisFrom, if_pos ⟨by simp, by simp⟩]
        simp [pySub_num, ok_bind, pure_eq_ok, hw, hsm]
      rw [hcomp] at hok
      cases hok
      rfl

/-- C7, witness: the three conjuncts applied at concrete inputs — a null
year; a document where the prior-year lookup is absent (so the growth is
absent); and a zero latest revenue (so the share is absent). -/
theorem claimC7_witness :
    deriveKpisFrom factsFix (Json.num 100) Json.null = Except.ok (none, none) ∧
    ((none, none) : Option ℚ × Option ℚ).1 = none ∧
    ((none, none) : Option ℚ × Option ℚ).2 = none :=
  ⟨claimC7_theorem.1 factsFix (Json.num 100) Json.null (Or.inl rfl),
   claimC7_theorem.2.1 factsNoFy 100 2023 (none, none) (by decide)
     (Or.inl (by rw [show (2023 - 1 : ℚ) = 2022 by norm_num]; decide)),
   claimC7_theorem.2.2 factsNoUsd 0 2023 (none, none) (by decide) (by norm_num)⟩

/-- C9: in simulation mode the brief generator's result is independent of
the generative model's reply — no model output is consulted, so two runs
on the same FeatureRecord yield identical structured data and display
document — and a FeatureRecord lacking `company_name` produces the
deterministic output with the placeholder name "unknown". -/
theorem claimC9_theorem :
    (∀ (bucket today : String) (event f b sj : Json)
       (t1 t2 : String) (p1 p2 : Option Json),
      resolveFeatures event = Except.ok f →
      resolveBedrockCfg event = Except.ok b →
      pyGetD b "simulate" (Json.bool false) = Except.ok sj →
      pyTruthy sj = true →
      generateRoiBriefHandler bucket today event t1 p1 =
        generateRoiBriefHandler bucket today event t2 p2) ∧
    (∀ kvs : List (String × Json), jsonLookup kvs "company_name" = none →
      simulateBrief (Json.obj kvs) = Except.ok (Json.obj [
        ("json_data", Json.obj [
          ("account_name", Json.str "unknown"),
          ("fiscal_year", (jsonLookup kvs "fiscal_year").getD Json.null),
          ("key_pain_points", Json.arr [
            Json.str ("Unclear sales enablement content"),
            Json.str ("Long rep ramp time")]),
          ("value_hypothesis", Json.str
            ("Reduce ramp time and improve win-rate by improving content findability and guided plays.")),
          ("next_best_action", Json.str ("Run a 30-day pilot with 3 sales teams."))]),
        ("html_summary", Json.str
          ("<html><body><h1>Simulated ROI Brief: unknown</h1><p>Key hypothesis and actions.</p></body></html>"))])) := by
  constructor
  · intro bucket today event f b sj t1 t2 p1 p2 hf hb hsj hsim
    simp only [generateRoiBriefHandler, hf, hb, hsj, ok_bind]
    cases hscfg : resolveSesCfg event with
    | error e => simp only [hscfg, error_bind]
    | ok s =>
      simp only [hscfg, ok_bind]
      by_cases hft : pyTruthy f
      · simp only [hft, Bool.not_true, Bool.false_eq_true, if_false, ok_bind,
          computeLlm, hsim, if_true]
      · simp [hft, throw_bind]
  · intro kvs h
    simp only [simulateBrief, pyGetD, h, Option.getD_none, ok_bind, pure_eq_ok]
    rw [show htmlEscape "unknown" = "unknown" by decide,
      show ("<html><body><h1>Simulated ROI Brief: " ++ "unknown" ++
          "</h1><p>Key hypothesis and actions.</p></body></html>" : String) =
        "<html><body><h1>Simulated ROI Brief: unknown</h1><p>Key hypothesis and actions.</p></body></html>"
        by decide]

/-- C9, witness: the two conjuncts at a concrete simulate-mode event whose
FeatureRecord lacks `company_name`. -/
theorem claimC9_witness :
    generateRoiBriefHandler "bucket" "2026-10-12"
      (Json.obj [
        ("features", Json.obj [("fiscal_year", Json.num 2023)]),
        ("bedrock", Json.obj [("simulate", Json.bool true)]),
        ("ses", Json.obj [("sender", Json.str "a@x"), ("recipient", Json.str "b@x")])])
      "reply one" none =
    generateRoiBriefHandler "bucket" "2026-10-12"
      (Json.obj [
        ("features", Json.obj [("fiscal_year", Json.num 2023)]),
        ("bedrock", Json.obj [("simulate", Json.bool true)]),
        ("ses", Json.obj [("sender", Json.str "a@x"), ("recipient", Json.str "b@x")])])
      "reply two" (some (Json.num 1)) ∧
    simulateBrief (Json.obj [("fiscal_year", Json.num 2023)]) = Except.ok (Json.obj [
      ("json_data", Json.obj [
        ("account_name", Json.str "unknown"),
        ("fiscal_year", Json.num 2023),
        ("key_pain_points", Json.arr [
          Json.str ("Unclear sales enablement content"),
          Json.str ("Long rep ramp time")]),
        ("value_hypothesis", Json.str
          ("Reduce ramp time and improve win-rate by improving content findability and guided plays.")),
        ("next_best_action", Json.str ("Run a 30-day pilot with 3 sales teams."))]),
      ("html_summary", Json.str
        ("<html><body><h1>Simulated ROI Brief: unknown</h1><p>Key hypothesis and actions.</p></body></html>"))]) :=
  ⟨claimC9_theorem.1 "bucket" "2026-10-12" _
      (Json.obj [("fiscal_year", Json.num 2023)])
      (Json.obj [("simulate", Json.bool true)]) (Json.bool true)
      "reply one" "reply two" none (some (Json.num 1))
      (by decide) (by decide) (by decide) (by decide),
   claimC9_theorem.2 [("fiscal_year", Json.num 2023)] (by decide)⟩

/-- C5 (amended): when annual observations (frame + 10-K) exist for the
concept and the explicitly requested fiscal year is **truthy (non-zero)**
and matches none of them, the extractor returns `(None, None)` — no
nearest-year fallback.  (The original claim, stated for every explicit
year, fails for the year 0, which Python truthiness treats as "no year
requested"; see the counterexample.) -/
theorem claimC5_theorem (fd : Json) (fn : String) (y : ℚ) (flJ : Json)
    (l af saf : List Json) :
    y ≠ 0 →
    usdFactList fd fn = Except.ok (some flJ) →
    pyIterElems flJ = Except.ok l →
    filterAnnual l = Except.ok af →
    af ≠ [] →
    sortFyDesc af = Except.ok saf →
    findFyMatch (Json.num y) saf = Except.ok none →
    get_latest_fact fd fn (Json.num y) = (Json.null, Json.null) := by
  intro hy husd hiter hfil hne hsort hfind
  have hsafne : saf ≠ [] := by
    intro h0
    subst h0
    exact hne (List.eq_nil_of_length_eq_zero ((sortFyDesc_length af [] hsort).symm))
  obtain ⟨t, ts, hts⟩ := List.exists_cons_of_ne_nil hsafne
  have htr : pyTruthy (Json.num y) = true := by simp [pyTruthy, hy]
  have hbody := body_eq_findBranch fd fn (Json.num y) flJ l af saf t ts
    husd hiter hfil hne hsort hts htr
  rw [hfind, ok_bind] at hbody
  exact glf_body_ok fd fn (Json.num y) (Json.null, Json.null) hbody

/-- C5, witness: requesting fiscal year 2021 on the fixture document whose
annual observations are for 2023 and 2022 yields `(None, None)`. -/
theorem claimC5_witness :
    get_latest_fact factsFix "Revenues" (Json.num 2021) = (Json.null, Json.null) :=
  claimC5_theorem factsFix "Revenues" 2021 (Json.arr [obsRev2023, obsRev2022])
    [obsRev2023, obsRev2022] [obsRev2023, obsRev2022] [obsRev2023, obsRev2022]
    (by norm_num) (by decide) (by decide) (by decide) (by decide) (by decide) (by decide)

/-- C3 (amended): when annual observations (frame + 10-K) exist for the
concept and the explicitly requested fiscal year is **truthy (non-zero)**,
a non-absent extraction result carries a fiscal year that Python-equals
the requested one.  (The original unrestricted claim fails on documents
with no annual observations, where the fallback path ignores the
requested year; see the counterexample.) -/
theorem claimC3_theorem (fd : Json) (fn : String) (y : ℚ) (flJ : Json)
    (l af : List Json) (v fyv : Json) :
    y ≠ 0 →
    usdFactList fd fn = Except.ok (some flJ) →
    pyIterElems flJ = Except.ok l →
    filterAnnual l = Except.ok af →
    af ≠ [] →
    get_latest_fact fd fn (Json.num y) = (v, fyv) →
    (v, fyv) ≠ (Json.null, Json.null) →
    pyEq fyv (Json.num y) = true := by
  intro hy husd hiter hfil hne hres hnn
  have htr : pyTruthy (Json.num y) = true := by simp [pyTruthy, hy]
  cases hsort : sortFyDesc af with
  | error e =>
    exfalso
    apply hnn
    rw [← hres]
    apply glf_body_error fd fn (Json.num y) e
    simp only [getLatestFactBody, husd, ok_bind, hiter, hfil]
    rw [if_neg (fun hemp => hne (List.isEmpty_iff.mp hemp))]
    simp only [hsort, error_bind]
  | ok saf =>
    have hsafne : saf ≠ [] := by
      intro h0
      subst h0
      exact hne (List.eq_nil_of_length_eq_zero ((sortFyDesc_length af [] hsort).symm))
    obtain ⟨t, ts, hts⟩ := List.exists_cons_of_ne_nil hsafne
    have hbody := body_eq_findBranch fd fn (Json.num y) flJ l af saf t ts
      husd hiter hfil hne hsort hts htr
    cases hfind : findFyMatch (Json.num y) saf with
    | error e =>
      exfalso
      apply hnn
      rw [← hres]
      apply glf_body_error fd fn (Json.num y) e
      rw [hbody, hfind, error_bind]
    | ok o =>
      cases o with
      | none =>
        exfalso
        apply hnn
        rw [← hres]
        apply glf_body_ok fd fn (Json.num y) (Json.null, Json.null)
        rw [hbody, hfind, ok_bind]
        rfl
      | some found =>
        obtain ⟨w, hw, hEq⟩ := findFyMatch_some (Json.num y) saf found hfind
        rw [hfind, ok_bind] at hbody
        have hbody2 : getLatestFactBody fd fn (Json.num y) =
            (do
              let v0 ← pyGetD found "val" Json.null
              let yy ← pyGetD found "fy" Json.null
              pure (v0, yy)) := hbody
        cases hval : pyGetD found "val" Json.null with
        | error e =>
          exfalso
          apply hnn
          rw [← hres]
          apply glf_body_error fd fn (Json.num y) e
          rw [hbody2, hval, error_bind]
        | ok v0 =>
          rw [hval, ok_bind, hw, ok_bind] at hbody2
          have : get_latest_fact fd fn (Json.num y) = (v0, w) :=
            glf_body_ok fd fn (Json.num y) (v0, w) hbody2
          rw [hres] at this
          cases this
          exact hEq

/-- C3, witness: requesting fiscal year 2022 on the fixture document with
annual observations for 2023 and 2022 returns the 2022 value, whose
fiscal year equals the requested one. -/
theorem claimC3_witness :
    pyEq (Json.num 2022) (Json.num 2022) = true :=
  claimC3_theorem factsFix "Revenues" 2022 (Json.arr [obsRev2023, obsRev2022])
    [obsRev2023, obsRev2022] [obsRev2023, obsRev2022] (Json.num 80) (Json.num 2022)
    (by norm_num) (by decide) (by decide) (by decide) (by decide) (by decide) (by decide)

/-- C2 (amended): unwrapping tolerates exactly **one** envelope level: for
every store and every domain payload object (itself free of a `Payload`
key), the build-features handler produces the same result — in particular
the same FeatureRecord — whether the payload arrives under the domain key
wrapped in a single `Payload` invocation envelope or unwrapped.  Deeper
nesting is not unwrapped (see the counterexample). -/
theorem claimC2_theorem (store : String → Option Json)
    (kvs : List (String × Json)) (nm ck : Json) :
    jsonLookup kvs "Payload" = none →
    buildFeaturesHandler store (Json.obj [
      ("edgar_data", Json.obj [("Payload", Json.obj kvs)]),
      ("name", nm), ("cik", ck)]) =
    buildFeaturesHandler store (Json.obj [
      ("edgar_data", Json.obj kvs),
      ("name", nm), ("cik", ck)]) := by
  intro h
  have hu1 : unwrapEdgar (Json.obj [
      ("edgar_data", Json.obj [("Payload", Json.obj kvs)]),
      ("name", nm), ("cik", ck)]) = Except.ok (Json.obj kvs) := rfl
  have hu2 : unwrapEdgar (Json.obj [
      ("edgar_data", Json.obj kvs),
      ("name", nm), ("cik", ck)]) = Except.ok (Json.obj kvs) := by
    cases kvs with
    | nil => rfl
    | cons p ps =>
      have hstep : unwrapEdgar (Json.obj [
          ("edgar_data", Json.obj (p :: ps)), ("name", nm), ("cik", ck)]) =
        (match jsonLookup (p :: ps) "Payload" with
          | some q => pure q
          | none => pure (Json.obj (p :: ps))) := rfl
      rw [hstep, h]
      rfl
  simp only [buildFeaturesHandler, hu1, hu2, ok_bind]
  exact buildFeaturesWithEdgar_event_congr store _ _ (Json.obj kvs) rfl rfl rfl

/-- C2, witness: on the fixture store, the payload wrapped in one
`Payload` envelope and the unwrapped payload give the same handler
result. -/
theorem claimC2_witness :
    buildFeaturesHandler storeFix (Json.obj [
      ("edgar_data", Json.obj [("Payload", payloadFix)]),
      ("name", Json.str "Acme"), ("cik", Json.null)]) =
    buildFeaturesHandler storeFix (Json.obj [
      ("edgar_data", payloadFix),
      ("name", Json.str "Acme"), ("cik", Json.null)]) :=
  claimC2_theorem storeFix payloadEntries (Json.str "Acme") Json.null (by decide)

/-- C4 (amended): missing-configuration behaviour per stage.  The
build-features stage raises `ValueError` when a storage reference is
missing; the brief generator raises `ValueError` when the features
payload is missing and when the notification sender/recipient is missing;
but the analyze-and-notify stage **returns** an error-valued result
(`{"error": ...}`) for its missing sender/recipient instead of raising
(see the counterexample). -/
theorem claimC4_theorem :
    (∀ (store : String → Option Json) (event eo refs fk sk : Json),
      unwrapEdgar event = Except.ok eo →
      resolveS3Refs event eo = Except.ok refs →
      pyGetD refs "facts_key" Json.null = Except.ok fk →
      pyGetD refs "submissions_key" Json.null = Except.ok sk →
      (pyTruthy fk = false ∨ pyTruthy sk = false) →
      buildFeaturesHandler store event =
        Except.error (PyErr.valueError ("Missing S3 references in the event payload"))) ∧
    (∀ (bucket today : String) (event f b s : Json) (t : String) (p : Option Json),
      resolveFeatures event = Except.ok f →
      resolveBedrockCfg event = Except.ok b →
      resolveSesCfg event = Except.ok s →
      pyTruthy f = false →
      generateRoiBriefHandler bucket today event t p =
        Except.error (PyErr.valueError ("Features data is missing"))) ∧
    (∀ (bucket today : String) (event f b s sj llm : Json) (slug : String)
       (snd rcp cn0 : Json) (t : String) (p : Option Json),
      resolveFeatures event = Except.ok f →
      resolveBedrockCfg event = Except.ok b →
      resolveSesCfg event = Except.ok s →
      pyTruthy f = true →
      pyGetD b "simulate" (Json.bool false) = Except.ok sj →
      computeLlm f sj t p = Except.ok llm →
      persistPrep f llm = Except.ok slug →
      pyGetD s "sender" Json.null = Except.ok snd →
      pyGetD s "recipient" Json.null = Except.ok rcp →
      pyGetD f "company_name" (Json.str "N/A") = Except.ok cn0 →
      (pyTruthy snd = false ∨ pyTruthy rcp = false) →
      generateRoiBriefHandler bucket today event t p =
        Except.error (PyErr.valueError ("SES sender or recipient missing"))) ∧
    (∀ (env : Option String) (today : String) (resp sesResp event : Json)
       (agg bcfg scfg ad pc0 sc : Json) (n : Nat) (pc : Json)
       (params : String × Json × Int × ℚ) (txt : String) (snd rcp subj : Json),
      anResolveCfgs event = Except.ok (agg, bcfg, scfg) →
      anAggData agg = Except.ok ad →
      pyGetD ad "prompt_context" (Json.str "") = Except.ok pc0 →
      pyGetD ad "source_count" (Json.num 0) = Except.ok sc →
      pyLen pc0 = Except.ok n →
      pySliceOk pc0 = Except.ok () →
      pyTruthy pc0 = true →
      anAugmentPrompt pc0 sc = Except.ok pc →
      anBedrockParams env bcfg = Except.ok params →
      extractLlmText resp = Except.ok txt →
      pyGetD scfg "sender" Json.null = Except.ok snd →
      pyGetD scfg "recipient" Json.null = Except.ok rcp →
      pyGetD scfg "subject" (Json.str ("Daily Web Intel")) = Except.ok subj →
      (pyTruthy snd = false ∨ pyTruthy rcp = false) →
      analyzeNotifyHandler env today resp sesResp event =
        Except.ok (Json.obj [("error", Json.str ("SES sender or recipient missing"))])) := by
  refine ⟨?_, ?_, ?_, ?_⟩
  · intro store event eo refs fk sk h1 h2 h3 h4 h5
    simp only [buildFeaturesHandler, h1, ok_bind, buildFeaturesWithEdgar, h2, h3, h4]
    rcases h5 with h | h <;>
      simp [h, throw_bind]
  · intro bucket today event f b s t p hf hb hs hft
    simp only [generateRoiBriefHandler, hf, hb, hs, ok_bind, hft, Bool.not_false,
      if_true, throw_bind]
  · intro bucket today event f b s sj llm slug snd rcp cn0 t p
      hf hb hs hft hsj hcl hpp hsnd hrcp hcn h5
    simp only [generateRoiBriefHandler, hf, hb, hs, ok_bind, hft, Bool.not_true,
      Bool.false_eq_true, if_false, hsj, hcl, hpp, hsnd, hrcp, hcn]
    rcases h5 with h | h <;>
      simp [h, throw_bind, throw_eq_error]
  · intro env today resp sesResp event agg bcfg scfg ad pc0 sc n pc params txt
      snd rcp subj hcfg had hpc0 hsc hlen hslice htr haug hparams htxt hsnd hrcp hsubj h5
    simp only [analyzeNotifyHandler, hcfg, ok_bind, had, hpc0, hsc, hlen, hslice,
      htr, haug, hparams, htxt, hsnd, hrcp, hsubj]
    rcases h5 with h | h <;>
      simp [h, pure_eq_ok]

/-- C4, witness: the four conjuncts at concrete inputs — an event with no
storage references, a brief-generator event with no features, one with
features but an empty SES configuration, and the analyze-and-notify event
with a missing sender. -/
theorem claimC4_witness :
    buildFeaturesHandler storeFix (Json.obj []) =
      Except.error (PyErr.valueError ("Missing S3 references in the event payload")) ∧
    generateRoiBriefHandler "bucket" "2026-10-12" (Json.obj []) "t" none =
      Except.error (PyErr.valueError ("Features data is missing")) ∧
    generateRoiBriefHandler "bucket" "2026-10-12"
      (Json.obj [
        ("features", Json.obj [("company_name", Json.str "Acme")]),
        ("bedrock", Json.obj [("simulate", Json.bool true)])]) "t" none =
      Except.error (PyErr.valueError ("SES sender or recipient missing")) ∧
    analyzeNotifyHandler none "2026-10-13" bedrockRespFix (Json.obj [])
      (Json.obj [
        ("aggregated", Json.obj [
          ("prompt_context", Json.str "hi"), ("source_count", Json.num 2)])]) =
      Except.ok (Json.obj [("error", Json.str ("SES sender or recipient missing"))]) :=
  ⟨claimC4_theorem.1 storeFix (Json.obj []) (Json.obj []) (Json.obj [])
      Json.null Json.null (by decide) (by decide) (by decide) (by decide)
      (Or.inl (by decide)),
   claimC4_theorem.2.1 "bucket" "2026-10-12" (Json.obj []) (Json.obj [])
      (Json.obj []) (Json.obj []) "t" none (by decide) (by decide) (by decide)
      (by decide),
   claimC4_theorem.2.2.1 "bucket" "2026-10-12"
      (Json.obj [
        ("features", Json.obj [("company_name", Json.str "Acme")]),
        ("bedrock", Json.obj [("simulate", Json.bool true)])])
      (Json.obj [("company_name", Json.str "Acme")])
      (Json.obj [("simulate", Json.bool true)]) (Json.obj [])
      (Json.bool true)
      (Json.obj [
        ("json_data", Json.obj [
          ("account_name", Json.str "Acme"),
          ("fiscal_year", Json.null),
          ("key_pain_points", Json.arr [
            Json.str ("Unclear sales enablement content"),
            Json.str ("Long rep ramp time")]),
          ("value_hypothesis", Json.str
            ("Reduce ramp time and improve win-rate by improving content findability and guided plays.")),
          ("next_best_action", Json.str ("Run a 30-day pilot with 3 sales teams."))]),
        ("html_summary", Json.str
          ("<html><body><h1>Simulated ROI Brief: Acme</h1><p>Key hypothesis and actions.</p></body></html>"))])
      "acme" Json.null Json.null (Json.str "Acme") "t" none
      (by decide) (by decide) (by decide) (by decide) (by decide) (by decide)
      (by decide) (by decide) (by decide) (by decide) (Or.inl (by decide)),
   claimC4_theorem.2.2.2 none "2026-10-13" bedrockRespFix (Json.obj [])
      (Json.obj [
        ("aggregated", Json.obj [
          ("prompt_context", Json.str "hi"), ("source_count", Json.num 2)])])
      (Json.obj [("prompt_context", Json.str "hi"), ("source_count", Json.num 2)])
      (Json.obj []) (Json.obj [])
      (Json.obj [("prompt_context", Json.str "hi"), ("source_count", Json.num 2)])
      (Json.str "hi") (Json.num 2) 2 (Json.str "hi")
      ("us-west-2", Json.str "anthropic.claude-3-sonnet-20240229-v1:0", 2000, mkRat 1 5)
      "<html><body>ok</body></html>" Json.null Json.null (Json.str "Daily Web Intel")
      (by decide) (by decide) (by decide) (by decide) (by decide) (by decide)
      (by decide) (by decide) (by decide) (by decide) (by decide) (by decide)
      (by decide) (Or.inl (by decide))⟩

end PIP
